import Mathlib

/-!
Verification of the terminology mapping and translation engine of the
namaste-icd11-fhir-bridge backend (`app/services/mapping_service.py`,
`app/services/icd11_service.py`, `app/services/namaste_service.py`,
`app/api/routes/mapping.py`), shallowly embedded in Lean.

Conventions of the embedding:
* Python `float` similarity scores and band thresholds are modelled as rationals
  (`ℚ`); the literals `0.9`, `0.7`, `0.5`, `0.3` of the source become
  `mkRat 9 10`, `mkRat 7 10`, `mkRat 5 10`, `mkRat 3 10`.
* The MongoDB collections and the SQL table are modelled as Lean lists in
  physical (insertion) order; a Mongo filter becomes `List.filter`, a SQL
  `ORDER BY key` becomes a stable sort on that key.
* Fallible steps (HTTP calls, `insert_many`) are modelled by explicit
  outcome parameters, and functions that may raise return `Except`.
-/

namespace Bridge

/-- The `EquivalenceType` enum of `app/models/schemas.py`. -/
inductive EquivalenceType where
  | exact
  | equivalent
  | wider
  | narrower
  | inexact
deriving DecidableEq, Repr

/-- Model of `MappingService._determine_equivalence` (mapping_service.py lines 106-115):
`confidence >= 0.9 → exact`, `>= 0.7 → equivalent`, `>= 0.5 → wider`,
else `inexact`. -/
def determine_equivalence (confidence : ℚ) : EquivalenceType :=
  if mkRat 9 10 ≤ confidence then .exact
  else if mkRat 7 10 ≤ confidence then .equivalent
  else if mkRat 5 10 ≤ confidence then .wider
  else .inexact

/-- A vocabulary code document as consumed by the mapping generator:
the `display` and `definition` fields drive the similarity text. -/
structure CodeDoc where
  code : String
  display : String
  definition : String
deriving DecidableEq, Repr

/-- A candidate mapping dict as built in `MappingService.generate_mappings`
(mapping_service.py lines 77-85). -/
structure Mapping where
  source_code : String
  source_system : String
  target_code : String
  target_system : String
  equivalence : EquivalenceType
  confidence_score : ℚ
  is_validated : Bool
deriving DecidableEq, Repr

/-- The mapping dict built for one retained (source, target) pair
(mapping_service.py lines 77-85). -/
def mkMapping (source_system target_system : String) (sc tc : CodeDoc)
    (confidence : ℚ) : Mapping :=
  { source_code := sc.code
    source_system := source_system
    target_code := tc.code
    target_system := target_system
    equivalence := determine_equivalence confidence
    confidence_score := confidence
    is_validated := false }

/-- The candidate-generation loop of `MappingService.generate_mappings`
(mapping_service.py lines 42-98): empty source or target corpus yields `[]`;
otherwise for every source index `i` retain every target index `j` whose
similarity meets the threshold (`np.where(similarities >= threshold)`), and
emit one mapping per retained pair. `sim i j` abstracts the cosine-similarity
matrix entry computed by the TF-IDF vectorizer over the two corpora. -/
def generate_mappings (source_codes target_codes : List CodeDoc)
    (source_system target_system : String) (sim : Nat → Nat → ℚ)
    (threshold : ℚ) : List Mapping :=
  if source_codes.isEmpty || target_codes.isEmpty then []
  else
    (source_codes.enum.map (fun si =>
      ((target_codes.enum.filter (fun tj => threshold ≤ sim si.1 tj.1)).map
        (fun tj => mkMapping source_system target_system si.2 tj.2
          (sim si.1 tj.1))))).flatten

/-- Model of `MappingService.generate_mappings` with its fallible similarity stage made
explicit: the emptiness check of lines 42-44 returns `[]` before the
vectorizer runs, so a failure of the similarity computation (`simResult`)
is only surfaced on non-empty corpora (and the surrounding `except` re-raises
it, lines 100-104). -/
def generate_mappings_run (source_codes target_codes : List CodeDoc)
    (source_system target_system : String)
    (simResult : Except String (Nat → Nat → ℚ)) (threshold : ℚ) :
    Except String (List Mapping) :=
  if source_codes.isEmpty || target_codes.isEmpty then .ok []
  else
    match simResult with
    | .error e => .error e
    | .ok sim => .ok (generate_mappings source_codes target_codes
        source_system target_system sim threshold)

/-- Band behaviour of `_determine_equivalence`, as a reusable lemma. -/
theorem determine_equivalence_bands (c : ℚ) :
    (mkRat 9 10 ≤ c → determine_equivalence c = .exact) ∧
    (mkRat 7 10 ≤ c ∧ c < mkRat 9 10 → determine_equivalence c = .equivalent) ∧
    (mkRat 5 10 ≤ c ∧ c < mkRat 7 10 → determine_equivalence c = .wider) ∧
    (c < mkRat 5 10 → determine_equivalence c = .inexact) ∧
    determine_equivalence c ≠ .narrower := by
  unfold determine_equivalence
  by_cases h9 : mkRat 9 10 ≤ c
  · have h7 : mkRat 7 10 ≤ c := le_trans (by decide) h9
    have h5 : mkRat 5 10 ≤ c := le_trans (by decide) h9
    refine ⟨fun _ => by simp [h9], ?_, ?_, ?_, by simp [h9]⟩
    · rintro ⟨-, hlt⟩
      exact absurd h9 (not_le.mpr hlt)
    · rintro ⟨-, hlt⟩
      exact absurd h7 (not_le.mpr hlt)
    · intro hlt
      exact absurd h5 (not_le.mpr hlt)
  · by_cases h7 : mkRat 7 10 ≤ c
    · have h5 : mkRat 5 10 ≤ c := le_trans (by decide) h7
      refine ⟨fun h => absurd h h9, fun _ => by simp [h9, h7], ?_, ?_,
        by simp [h9, h7]⟩
      · rintro ⟨-, hlt⟩
        exact absurd h7 (not_le.mpr hlt)
      · intro hlt
        exact absurd h5 (not_le.mpr hlt)
    · by_cases h5 : mkRat 5 10 ≤ c
      · refine ⟨fun h => absurd h h9, ?_, fun _ => by simp [h9, h7, h5], ?_,
          by simp [h9, h7, h5]⟩
        · rintro ⟨hge, -⟩
          exact absurd hge h7
        · intro hlt
          exact absurd h5 (not_le.mpr hlt)
      · refine ⟨fun h => absurd h h9, ?_, ?_, fun _ => by simp [h9, h7, h5],
          by simp [h9, h7, h5]⟩
        · rintro ⟨hge, -⟩
          exact absurd hge h7
        · rintro ⟨hge, -⟩
          exact absurd hge h5

/-- Every mapping in the generator's output is `mkMapping` of some pair, with
its confidence drawn from the similarity matrix. -/
theorem mem_generate_mappings {source_codes target_codes : List CodeDoc}
    {source_system target_system : String} {sim : Nat → Nat → ℚ}
    {threshold : ℚ} {m : Mapping}
    (hm : m ∈ generate_mappings source_codes target_codes source_system
      target_system sim threshold) :
    ∃ i sc j tc, m = mkMapping source_system target_system sc tc (sim i j) := by
  unfold generate_mappings at hm
  by_cases hempty : source_codes.isEmpty || target_codes.isEmpty
  · simp [hempty] at hm
  · simp only [hempty, if_neg, Bool.false_eq_true, not_false_iff,
      List.mem_flatten, List.mem_map] at hm
    obtain ⟨l, ⟨si, hsi, rfl⟩, hml⟩ := hm
    simp only [List.mem_map, List.mem_filter] at hml
    obtain ⟨tj, ⟨htj, -⟩, rfl⟩ := hml
    exact ⟨si.1, si.2, tj.1, tj.2, rfl⟩

/-- Claim C2: every Correspondence emitted by `generate_mappings` carries the
equivalence of the fixed band containing its confidence score (`≥ 0.9` exact,
`[0.7, 0.9)` equivalent, `[0.5, 0.7)` wider, `< 0.5` inexact), and in
particular `narrower` is never emitted and no emitted record with score
`≥ 0.9` carries anything but `exact`. -/
theorem C2_equivalence_bands (source_codes target_codes : List CodeDoc)
    (source_system target_system : String) (sim : Nat → Nat → ℚ)
    (threshold : ℚ) (m : Mapping)
    (hm : m ∈ generate_mappings source_codes target_codes source_system
      target_system sim threshold) :
    (mkRat 9 10 ≤ m.confidence_score → m.equivalence = .exact) ∧
    (mkRat 7 10 ≤ m.confidence_score ∧ m.confidence_score < mkRat 9 10 →
      m.equivalence = .equivalent) ∧
    (mkRat 5 10 ≤ m.confidence_score ∧ m.confidence_score < mkRat 7 10 →
      m.equivalence = .wider) ∧
    (m.confidence_score < mkRat 5 10 → m.equivalence = .inexact) ∧
    m.equivalence ≠ .narrower := by
  obtain ⟨i, sc, j, tc, rfl⟩ := mem_generate_mappings hm
  simpa [mkMapping] using determine_equivalence_bands (sim i j)

/-- A concrete corpus pair for witnesses: one source document and one target
document. -/
def w_source : List CodeDoc := [⟨"A1", "joint pain", ""⟩]

/-- Concrete target corpus for witnesses. -/
def w_target : List CodeDoc := [⟨"B1", "joint pain disorder", ""⟩]

/-- A concrete similarity matrix assigning score 0.95 to the only pair. -/
def w_sim : Nat → Nat → ℚ := fun _ _ => mkRat 95 100

/-- Witness for C2: on the concrete corpora the generator emits the mapping
with score 0.95, and that mapping satisfies the band property. -/
theorem C2_equivalence_bands_witness :
    (mkMapping "namaste" "icd11_tm2" ⟨"A1", "joint pain", ""⟩
        ⟨"B1", "joint pain disorder", ""⟩ (mkRat 95 100)) ∈
      generate_mappings w_source w_target "namaste" "icd11_tm2" w_sim
        (mkRat 3 10) ∧
    (mkRat 9 10 ≤ (mkMapping "namaste" "icd11_tm2" ⟨"A1", "joint pain", ""⟩
        ⟨"B1", "joint pain disorder", ""⟩ (mkRat 95 100)).confidence_score →
      (mkMapping "namaste" "icd11_tm2" ⟨"A1", "joint pain", ""⟩
        ⟨"B1", "joint pain disorder", ""⟩ (mkRat 95 100)).equivalence = .exact) :=
  ⟨by decide, fun h =>
    (C2_equivalence_bands w_source w_target "namaste" "icd11_tm2" w_sim
      (mkRat 3 10) _ (by decide)).1 h⟩

/-- Claim C7: for fixed corpora and similarity matrix, raising the threshold
never increases the number of generated candidates. -/
theorem C7_threshold_monotone (source_codes target_codes : List CodeDoc)
    (source_system target_system : String) (sim : Nat → Nat → ℚ)
    (t1 t2 : ℚ) (h : t1 ≤ t2) :
    (generate_mappings source_codes target_codes source_system target_system
      sim t2).length ≤
    (generate_mappings source_codes target_codes source_system target_system
      sim t1).length := by
  unfold generate_mappings
  by_cases hempty : source_codes.isEmpty || target_codes.isEmpty
  · simp [hempty]
  · simp only [hempty, Bool.false_eq_true, if_false]
    rw [List.length_flatten, List.length_flatten, List.map_map, List.map_map]
    apply List.sum_le_sum
    intro si _
    simp only [Function.comp_apply, List.length_map]
    rw [← List.countP_eq_length_filter, ← List.countP_eq_length_filter]
    apply List.countP_mono_left
    intro tj _ htj
    have h2 : t2 ≤ sim si.1 tj.1 := of_decide_eq_true htj
    exact decide_eq_true (le_trans h h2)

/-- Witness for C7: on the concrete corpora, tightening the threshold from
0.3 to 0.99 leaves at most as many candidates. -/
theorem C7_threshold_monotone_witness :
    (mkRat 3 10 : ℚ) ≤ mkRat 99 100 ∧
    (generate_mappings w_source w_target "namaste" "icd11_tm2" w_sim
      (mkRat 99 100)).length ≤
    (generate_mappings w_source w_target "namaste" "icd11_tm2" w_sim
      (mkRat 3 10)).length :=
  ⟨by decide, C7_threshold_monotone w_source w_target "namaste" "icd11_tm2"
    w_sim (mkRat 3 10) (mkRat 99 100) (by decide)⟩

/-- Claim C9: with an empty source or target corpus, `generate_mappings`
returns the empty result without raising, even when the downstream
similarity stage would fail. -/
theorem C9_empty_corpus (source_codes target_codes : List CodeDoc)
    (source_system target_system : String)
    (simResult : Except String (Nat → Nat → ℚ)) (threshold : ℚ)
    (h : source_codes = [] ∨ target_codes = []) :
    generate_mappings_run source_codes target_codes source_system
      target_system simResult threshold = .ok [] := by
  unfold generate_mappings_run
  rcases h with h | h <;> simp [h]

/-- Witness for C9: an empty source corpus against a non-empty target, with a
similarity stage that would fail, still yields `.ok []`. -/
theorem C9_empty_corpus_witness :
    (([] : List CodeDoc) = [] ∨ w_target = []) ∧
    generate_mappings_run [] w_target "namaste" "icd11_tm2"
      (.error "vectorizer failed") (mkRat 3 10) = .ok [] :=
  ⟨Or.inl rfl, C9_empty_corpus [] w_target "namaste" "icd11_tm2"
    (.error "vectorizer failed") (mkRat 3 10) (Or.inl rfl)⟩

/-- A row of the `concept_mappings` SQL table (`app/models/database.py`
lines 26-45). `created_at` and `validation_date` are modelled as abstract
timestamps (naturals). -/
structure ConceptMapping where
  id : Nat
  source_code : String
  source_system : String
  target_code : String
  target_system : String
  equivalence : EquivalenceType
  confidence_score : ℚ
  is_validated : Bool
  validated_by : Option String
  validation_date : Option Nat
  created_at : Nat
deriving DecidableEq, Repr

/-- The row filter of `MappingService.translate_code` (mapping_service.py
lines 127-131). -/
def matchesQuery (code source_system target_system : String)
    (m : ConceptMapping) : Bool :=
  m.source_code == code && m.source_system == source_system &&
    m.target_system == target_system

/-- The sort key of `order_by(ConceptMapping.confidence_score.desc())`:
`a` may precede `b` when `a`'s score is at least `b`'s. -/
def confDesc (a b : ConceptMapping) : Prop :=
  b.confidence_score ≤ a.confidence_score

instance : DecidableRel confDesc := fun a b =>
  inferInstanceAs (Decidable (b.confidence_score ≤ a.confidence_score))

instance : IsTotal ConceptMapping confDesc :=
  ⟨fun a b => le_total b.confidence_score a.confidence_score⟩

instance : IsTrans ConceptMapping confDesc :=
  ⟨fun _ _ _ h1 h2 => le_trans h2 h1⟩

/-- Model of `MappingService.translate_code` (mapping_service.py lines 117-133): filter
the `concept_mappings` table by `(source_code, source_system, target_system)`
and order by `confidence_score` descending. The table is modelled as a list
in physical row order; `ORDER BY` on the single key `confidence_score DESC`
(the query names no secondary sort key) is modelled as a stable sort on that
key, which leaves rows with equal scores in table order. -/
def translate_code (store : List ConceptMapping)
    (code source_system target_system : String) : List ConceptMapping :=
  List.insertionSort confDesc
    (store.filter (matchesQuery code source_system target_system))

/-- The ordering asserted by the resolver contract: confidence descending,
ties broken by `created_at` ascending. -/
def resolverClaimOrder (l : List ConceptMapping) : Prop :=
  l.Pairwise (fun a b => b.confidence_score ≤ a.confidence_score ∧
    (a.confidence_score = b.confidence_score → a.created_at ≤ b.created_at))

/-- A stored row created later (timestamp 10) that physically precedes its
equal-score sibling. -/
def c1_r1 : ConceptMapping :=
  { id := 1, source_code := "A1", source_system := "namaste",
    target_code := "B1", target_system := "icd11_tm2",
    equivalence := .wider, confidence_score := mkRat 1 2,
    is_validated := false, validated_by := none, validation_date := none,
    created_at := 10 }

/-- A stored row with the same confidence score as `c1_r1` but an earlier
`created_at` (timestamp 5), stored after it. -/
def c1_r2 : ConceptMapping :=
  { id := 2, source_code := "A1", source_system := "namaste",
    target_code := "B2", target_system := "icd11_tm2",
    equivalence := .wider, confidence_score := mkRat 1 2,
    is_validated := false, validated_by := none, validation_date := none,
    created_at := 5 }

/-- Counterexample to claim C1: on a store holding two matching rows with
equal confidence scores where the later-created row is stored first,
`translate_code` returns the later-created row first, so the output is not
ordered by `created_at` ascending within the tie. -/
theorem C1_tie_order_counterexample :
    ¬ resolverClaimOrder
      (translate_code [c1_r1, c1_r2] "A1" "namaste" "icd11_tm2") := by
  unfold resolverClaimOrder
  decide

/-- Claim C1 as amended: `translate_code` returns the matching rows sorted by
`confidence_score` descending (and nothing else: the output is a permutation
of the rows matching the triple); the relative order of rows with equal
scores is the store's order, not necessarily `created_at` ascending. -/
theorem C1_amended_sorted_by_confidence (store : List ConceptMapping)
    (code source_system target_system : String) :
    List.Sorted confDesc
      (translate_code store code source_system target_system) ∧
    List.Perm (translate_code store code source_system target_system)
      (store.filter (matchesQuery code source_system target_system)) :=
  ⟨List.sorted_insertionSort confDesc _, List.perm_insertionSort confDesc _⟩

/-- A user row as far as the validation route consults it
(`app/models/database.py` lines 66-78). -/
structure User where
  username : String
  role : String
deriving DecidableEq, Repr

/-- The HTTP error outcomes of the `validate_mapping` route. -/
inductive ApiError where
  | forbidden
  | notFound
deriving DecidableEq, Repr

/-- Replace the first element satisfying `p` by its image under `f`,
modelling mutation of the single ORM object returned by `.first()`. -/
def updateFirst {α : Type} (p : α → Bool) (f : α → α) : List α → List α
  | [] => []
  | x :: xs => if p x then f x :: xs else x :: updateFirst p f xs

/-- The field overwrite of `validate_mapping` (mapping.py lines 143-145):
`mapping.is_validated = is_valid; mapping.validated_by = username;
mapping.validation_date = now`. -/
def overwriteValidation (is_valid : Bool) (username : String) (now : Nat)
    (m : ConceptMapping) : ConceptMapping :=
  { m with is_validated := is_valid, validated_by := some username,
           validation_date := some now }

/-- The `validate_mapping` route (`app/api/routes/mapping.py` lines 117-155):
role gate (`admin`/`expert`, else 403), first-match lookup by id (404 when
absent), then unconditional overwrite of `is_validated`, `validated_by` and
`validation_date`; `now` stands for `datetime.utcnow()`. -/
def validate_mapping (store : List ConceptMapping) (mapping_id : Nat)
    (is_valid : Bool) (current_user : User) (now : Nat) :
    Except ApiError (List ConceptMapping) :=
  if current_user.role == "admin" || current_user.role == "expert" then
    match store.find? (fun m => m.id == mapping_id) with
    | none => .error .notFound
    | some _ => .ok (updateFirst (fun m => m.id == mapping_id)
        (overwriteValidation is_valid current_user.username now) store)
  else .error .forbidden

/-- Applying `updateFirst` rewrites the row that `find?` located, provided the update
preserves the predicate. -/
theorem find?_updateFirst {α : Type} (p : α → Bool) (f : α → α)
    (l : List α) (x : α) (hx : l.find? p = some x)
    (hf : ∀ a, p a = true → p (f a) = true) :
    (updateFirst p f l).find? p = some (f x) := by
  induction l with
  | nil => simp at hx
  | cons a l ih =>
    by_cases h : p a
    · rw [List.find?_cons_of_pos l h] at hx
      cases hx
      simp only [updateFirst, if_pos h]
      exact List.find?_cons_of_pos l (hf _ h)
    · rw [List.find?_cons_of_neg l h] at hx
      simp only [updateFirst, if_neg h]
      rw [List.find?_cons_of_neg _ h]
      exact ih hx

/-- Claim C6: with an authorized actor, `validate_mapping` fails with 404 on
an unknown id; on a known id it overwrites the validation state,
`validated_by` and `validation_date` unconditionally, so validating with
`(id, true, alice)` and then `(id, false, bob)` leaves the row rejected
(`is_validated = false`) with `validated_by = bob`. -/
theorem C6_validation_override (store : List ConceptMapping)
    (mapping_id : Nat) (alice bob : User) (t1 t2 : Nat)
    (ha : alice.role = "admin" ∨ alice.role = "expert")
    (hb : bob.role = "admin" ∨ bob.role = "expert") :
    (store.find? (fun m => m.id == mapping_id) = none →
      validate_mapping store mapping_id true alice t1 = .error .notFound) ∧
    (∀ x, store.find? (fun m => m.id == mapping_id) = some x →
      ∃ s1 s2, validate_mapping store mapping_id true alice t1 = .ok s1 ∧
        validate_mapping s1 mapping_id false bob t2 = .ok s2 ∧
        ∃ r, s2.find? (fun m => m.id == mapping_id) = some r ∧
          r.is_validated = false ∧ r.validated_by = some bob.username ∧
          r.validation_date = some t2) := by
  have haB : (alice.role == "admin" || alice.role == "expert") = true := by
    rcases ha with h | h <;> simp [h]
  have hbB : (bob.role == "admin" || bob.role == "expert") = true := by
    rcases hb with h | h <;> simp [h]
  constructor
  · intro hnone
    unfold validate_mapping
    rw [if_pos haB, hnone]
  · intro x hx
    have h1 : (updateFirst (fun m => m.id == mapping_id)
        (overwriteValidation true alice.username t1) store).find?
        (fun m => m.id == mapping_id) =
        some (overwriteValidation true alice.username t1 x) :=
      find?_updateFirst _ _ store x hx (fun _ hm => hm)
    refine ⟨updateFirst (fun m => m.id == mapping_id)
        (overwriteValidation true alice.username t1) store,
      updateFirst (fun m => m.id == mapping_id)
        (overwriteValidation false bob.username t2)
        (updateFirst (fun m => m.id == mapping_id)
          (overwriteValidation true alice.username t1) store),
      ?_, ?_, ?_⟩
    · unfold validate_mapping
      rw [if_pos haB, hx]
    · unfold validate_mapping
      rw [if_pos hbB, h1]
    · have h2 := find?_updateFirst (fun m => m.id == mapping_id)
        (overwriteValidation false bob.username t2) _ _ h1 (fun _ hm => hm)
      exact ⟨_, h2, rfl, rfl, rfl⟩

/-- A concrete unvalidated row for the C6 witness. -/
def c6_row : ConceptMapping :=
  { id := 7, source_code := "A1", source_system := "namaste",
    target_code := "B1", target_system := "icd11_tm2",
    equivalence := .equivalent, confidence_score := mkRat 3 4,
    is_validated := false, validated_by := none, validation_date := none,
    created_at := 0 }

/-- Witness for C6: on a one-row store, alice validates and bob then rejects;
the row ends rejected and attributed to bob. -/
theorem C6_validation_override_witness :
    ([c6_row].find? (fun m => m.id == 7) = some c6_row) ∧
    (∃ s1 s2, validate_mapping [c6_row] 7 true ⟨"alice", "expert"⟩ 5 = .ok s1 ∧
      validate_mapping s1 7 false ⟨"bob", "admin"⟩ 9 = .ok s2 ∧
      ∃ r, s2.find? (fun m => m.id == 7) = some r ∧
        r.is_validated = false ∧ r.validated_by = some "bob" ∧
        r.validation_date = some 9) :=
  ⟨by decide,
    (C6_validation_override [c6_row] 7 ⟨"alice", "expert"⟩ ⟨"bob", "admin"⟩
      5 9 (Or.inr rfl) (Or.inl rfl)).2 c6_row (by decide)⟩

/-- A title or definition value in an ICD-11 API response: absent, a plain
string, or a language object with optional `@value` and `en` keys
(`ICD11Service._extract_title`, icd11_service.py lines 139-143). -/
inductive TitleVal where
  | missing
  | str (s : String)
  | obj (atValue : Option String) (en : Option String)
deriving DecidableEq, Repr

/-- Model of `ICD11Service._extract_title` (icd11_service.py lines 139-143): a dict
yields `get("@value", "") or get("en", "")` (Python `or` falls through on
the empty string); a missing/falsy value yields `""`; a plain string yields
itself (`str(title_obj)`, and the empty string is falsy, yielding `""`,
which coincides with itself). -/
def extract_title : TitleVal → String
  | .missing => ""
  | .str s => s
  | .obj v e => if v.getD "" == "" then e.getD "" else v.getD ""

/-- A stored ICD-11 TM2 code document, the `code_entry` dict of
`_process_tm2_hierarchy` (icd11_service.py lines 122-129). -/
structure Tm2Code where
  code : String
  display : String
  system : String
  definition : String
  uri : String
  is_active : Bool
deriving DecidableEq, Repr

/-- The body of a successfully fetched child entity. -/
structure ChildEntity where
  code : String
  title : TitleVal
  definition : TitleVal
  atId : String
deriving DecidableEq, Repr

/-- The outcome of one child fetch in `_process_tm2_hierarchy`
(icd11_service.py lines 116-135): HTTP 200 with a body, an HTTP response
with a non-200 status (the `if` guard fails, nothing is appended and nothing
is logged), or a raised exception (caught, `logger.warning`, `continue`). -/
inductive ChildFetch where
  | ok (entity : ChildEntity)
  | badStatus (status : Nat)
  | exn (msg : String)
deriving DecidableEq, Repr

/-- The `code_entry` dict built for one fetched child
(icd11_service.py lines 122-129). -/
def entryOfChild (e : ChildEntity) : Tm2Code :=
  { code := e.code, display := extract_title e.title, system := "icd11_tm2",
    definition := extract_title e.definition, uri := e.atId,
    is_active := true }

/-- Whether a child fetch produced an entity. -/
def childOk : ChildFetch → Bool
  | .ok _ => true
  | _ => false

/-- Whether a child fetch failed (non-200 response or exception). -/
def childFailed : ChildFetch → Bool
  | .ok _ => false
  | _ => true

/-- Whether a child fetch raised an exception (the only logged failure). -/
def childExn : ChildFetch → Bool
  | .exn _ => true
  | _ => false

/-- The entity of a successful child fetch. -/
def childEntry : ChildFetch → Option Tm2Code
  | .ok e => some (entryOfChild e)
  | _ => none

/-- The warning message logged for a child fetch, if any. -/
def childWarning : ChildFetch → Option String
  | .exn msg => some ("Failed to fetch child entity: " ++ msg)
  | _ => none

/-- Model of `ICD11Service._process_tm2_hierarchy` (icd11_service.py lines 103-137):
iterate over the root's children in order, appending one code entry per
successful fetch and one warning per caught exception; non-200 responses
contribute neither. The loop accumulates in order, which is exactly the two
`filterMap`s below. Result: (codes, logged warnings). -/
def process_tm2_hierarchy (children : List ChildFetch) :
    List Tm2Code × List String :=
  (children.filterMap childEntry, children.filterMap childWarning)

/-- The result dict of a completed `fetch_tm2_codes` run
(icd11_service.py lines 93-97). -/
structure SyncReport where
  success : Bool
  codes_fetched : Nat
  system : String
deriving DecidableEq, Repr

/-- The persistence step and result of `ICD11Service.fetch_tm2_codes`
(icd11_service.py lines 85-97): when the crawled code list is non-empty,
`delete_many` removes every stored document with the TM2 system tag and
`insert_many` appends the new batch; `insert_ok` models whether
`insert_many` succeeds — on failure the exception propagates (lines 99-101
re-raise) with the collection left in its post-delete state. When the code
list is empty the collection is untouched. Returns the resulting collection
and either the report or the raised error. -/
def fetch_tm2_persist (store : List Tm2Code) (codes : List Tm2Code)
    (insert_ok : Bool) : List Tm2Code × Except String SyncReport :=
  if codes.isEmpty then
    (store, .ok { success := true, codes_fetched := codes.length,
                  system := "icd11_tm2" })
  else
    let store' := store.filter (fun e => !(e.system == "icd11_tm2"))
    if insert_ok then
      (store' ++ codes, .ok { success := true, codes_fetched := codes.length,
                              system := "icd11_tm2" })
    else
      (store', .error "insert_many failed")

/-- An ICD-11 TM2 document already present in the store before a sync. -/
def c3_old : Tm2Code :=
  { code := "TM-OLD", display := "old entry", system := "icd11_tm2",
    definition := "", uri := "", is_active := true }

/-- A freshly crawled ICD-11 TM2 document. -/
def c3_new : Tm2Code :=
  { code := "TM-NEW", display := "new entry", system := "icd11_tm2",
    definition := "", uri := "", is_active := true }

/-- Claim C3, evaluated at the failing input: with one old TM2 document
stored and one new code crawled, a failing bulk-insert leaves the store
empty — the prior snapshot was deleted before the insert was attempted, so
it does not remain intact. -/
theorem C3_insert_failure_loses_snapshot :
    ([c3_old].filter (fun e => e.system == "icd11_tm2") = [c3_old]) ∧
    (fetch_tm2_persist [c3_old] [c3_new] false).2 =
      .error "insert_many failed" ∧
    (fetch_tm2_persist [c3_old] [c3_new] false).1.filter
      (fun e => e.system == "icd11_tm2") = [] :=
  ⟨rfl, rfl, rfl⟩

/-- The authentication environment of `ICD11Service.authenticate`
(icd11_service.py lines 22-57): the cached Redis token, the token the auth
endpoint would issue, and the set of tokens the remote API accepts. -/
structure AuthEnv where
  cached_token : Option String
  fresh_token : String
  valid_tokens : List String
deriving DecidableEq, Repr

/-- Model of `ICD11Service.authenticate` (icd11_service.py lines 22-57): return the
cached token without contacting the token endpoint when one is present,
otherwise obtain and cache a fresh one. Result: (token, number of calls made
to the token endpoint). -/
def authenticate (env : AuthEnv) : String × Nat :=
  match env.cached_token with
  | some t => (t, 0)
  | none => (env.fresh_token, 1)

/-- Trace of one `fetch_tm2_codes` run as far as authentication and the
chapter fetch are concerned. -/
structure SyncAttempt where
  result : Except String Unit
  auth_calls : Nat
  fetch_calls : Nat
deriving Repr

/-- The token handling of `ICD11Service.fetch_tm2_codes` (icd11_service.py
lines 59-80): one `authenticate()`, then one GET of the TM2 chapter with
that token; any non-200 response — including an unauthorized response for a
stale cached token — raises immediately (line 80). There is no forced
re-authentication and no retry anywhere in the function. -/
def fetch_tm2_attempt (env : AuthEnv) : SyncAttempt :=
  if (authenticate env).1 ∈ env.valid_tokens then
    { result := .ok (), auth_calls := (authenticate env).2, fetch_calls := 1 }
  else
    { result := .error "Failed to fetch TM2 codes",
      auth_calls := (authenticate env).2, fetch_calls := 1 }

/-- A run makes exactly one chapter-fetch call. -/
theorem fetch_tm2_attempt_fetch_calls (env : AuthEnv) :
    (fetch_tm2_attempt env).fetch_calls = 1 := by
  unfold fetch_tm2_attempt
  split <;> rfl

/-- The authentication calls of a run are exactly those of `authenticate`. -/
theorem fetch_tm2_attempt_auth_calls (env : AuthEnv) :
    (fetch_tm2_attempt env).auth_calls = (authenticate env).2 := by
  unfold fetch_tm2_attempt
  split <;> rfl

/-- The environment of the C4 counterexample: a stale token sits in the
cache and the remote service accepts only the fresh one. -/
def c4_env : AuthEnv :=
  { cached_token := some "stale", fresh_token := "fresh",
    valid_tokens := ["fresh"] }

/-- Counterexample to claim C4: when the remote service rejects the cached
token, the synchronizer surfaces the hard failure after zero forced
re-authentications and a single call — it does not re-authenticate once and
retry once as claimed. -/
theorem C4_no_retry_counterexample :
    c4_env.cached_token = some "stale" ∧
    ("stale" ∈ c4_env.valid_tokens → False) ∧
    (fetch_tm2_attempt c4_env).result = .error "Failed to fetch TM2 codes" ∧
    (fetch_tm2_attempt c4_env).auth_calls = 0 ∧
    (fetch_tm2_attempt c4_env).fetch_calls = 1 := by
  refine ⟨rfl, ?_, rfl, rfl, rfl⟩
  intro h
  simp [c4_env] at h

/-- Claim C4 as amended: a run makes exactly one chapter-fetch call; with a
cached token it performs no authentication call at all, and when the remote
service rejects that token the run surfaces a hard failure immediately, with
no re-authentication and no retry (in particular it never loops: at most one
authentication call happens in any run). -/
theorem C4_amended_no_retry (env : AuthEnv) :
    (fetch_tm2_attempt env).fetch_calls = 1 ∧
    (env.cached_token.isSome → (fetch_tm2_attempt env).auth_calls = 0) ∧
    (∀ t, env.cached_token = some t → t ∉ env.valid_tokens →
      (fetch_tm2_attempt env).result = .error "Failed to fetch TM2 codes") ∧
    (fetch_tm2_attempt env).auth_calls ≤ 1 := by
  refine ⟨fetch_tm2_attempt_fetch_calls env, ?_, ?_, ?_⟩
  · intro hsome
    obtain ⟨t, ht⟩ := Option.isSome_iff_exists.mp hsome
    rw [fetch_tm2_attempt_auth_calls]
    unfold authenticate
    rw [ht]
  · intro t ht hinvalid
    have hauth : authenticate env = (t, 0) := by
      unfold authenticate
      rw [ht]
    unfold fetch_tm2_attempt
    rw [hauth]
    simp [hinvalid]
  · rw [fetch_tm2_attempt_auth_calls]
    unfold authenticate
    cases henv : env.cached_token <;> simp


/-- Witness for the amended C4: on the stale-cache environment, the run
makes one fetch call, no authentication call, and fails hard. -/
theorem C4_amended_no_retry_witness :
    (fetch_tm2_attempt c4_env).fetch_calls = 1 ∧
    ((fetch_tm2_attempt c4_env).auth_calls = 0 ∧
      (fetch_tm2_attempt c4_env).result = .error "Failed to fetch TM2 codes") :=
  ⟨(C4_amended_no_retry c4_env).1,
    (C4_amended_no_retry c4_env).2.1 (by decide),
    (C4_amended_no_retry c4_env).2.2.1 "stale" rfl (by decide)⟩

/-- Five crawled children of which the third returns HTTP 500: it is
skipped, but no warning is logged for it. -/
def c5_children : List ChildFetch :=
  [.ok ⟨"TM1", .str "one", .missing, "u1"⟩,
   .ok ⟨"TM2", .str "two", .missing, "u2"⟩,
   .badStatus 500,
   .ok ⟨"TM3", .str "three", .missing, "u3"⟩,
   .ok ⟨"TM4", .str "four", .missing, "u4"⟩]

/-- Counterexample to claim C5: in a crawl where one child of five fails
(with a non-200 response), the crawl does skip it and processes the
siblings, reporting four codes — but the failed child is not logged: the
warning list is empty, refuting "each failed child is logged". -/
theorem C5_silent_skip_counterexample :
    c5_children.countP childFailed = 1 ∧
    (process_tm2_hierarchy c5_children).1.length = 4 ∧
    (process_tm2_hierarchy c5_children).2 = [] := by
  decide

/-- The crawl emits exactly one code entry per successful child. -/
theorem length_filterMap_childEntry (children : List ChildFetch) :
    (children.filterMap childEntry).length = children.countP childOk := by
  induction children with
  | nil => rfl
  | cons c cs ih =>
    cases c <;> simp [childEntry, childOk, List.filterMap_cons,
      List.countP_cons, ih]

/-- The crawl logs exactly one warning per child that raised. -/
theorem length_filterMap_childWarning (children : List ChildFetch) :
    (children.filterMap childWarning).length = children.countP childExn := by
  induction children with
  | nil => rfl
  | cons c cs ih =>
    cases c <;> simp [childWarning, childExn, List.filterMap_cons,
      List.countP_cons, ih]

/-- Claim C5 as amended: a crawl with failing children always completes;
every successfully fetched child contributes its code entry (in order, so
siblings after a failure are still processed), the number of codes fetched
equals the number of successful children — and this is what the completed
run reports — while only children that failed with a raised exception are
logged; a child answering with a non-200 status is skipped silently. -/
theorem C5_amended_skip_and_count (children : List ChildFetch)
    (store : List Tm2Code) :
    (process_tm2_hierarchy children).1.length = children.countP childOk ∧
    (process_tm2_hierarchy children).2.length = children.countP childExn ∧
    (∀ e, ChildFetch.ok e ∈ children →
      entryOfChild e ∈ (process_tm2_hierarchy children).1) ∧
    (fetch_tm2_persist store (process_tm2_hierarchy children).1 true).2 =
      .ok { success := true, codes_fetched := children.countP childOk,
            system := "icd11_tm2" } := by
  have hlen : (process_tm2_hierarchy children).1.length =
      children.countP childOk := length_filterMap_childEntry children
  refine ⟨hlen, length_filterMap_childWarning children, ?_, ?_⟩
  · intro e he
    unfold process_tm2_hierarchy
    simp only [List.mem_filterMap]
    exact ⟨ChildFetch.ok e, he, rfl⟩
  · have hrep : (fetch_tm2_persist store (process_tm2_hierarchy children).1
        true).2 = .ok (SyncReport.mk true
          (process_tm2_hierarchy children).1.length "icd11_tm2") := by
      unfold fetch_tm2_persist
      split
      · rfl
      · simp
    rw [hrep, hlen]

/-- Witness for the amended C5: on the five-child crawl with one silent
failure, four codes are produced, the entry of the last child is present,
and the completed run reports four codes fetched. -/
theorem C5_amended_skip_and_count_witness :
    (process_tm2_hierarchy c5_children).1.length =
      c5_children.countP childOk ∧
    entryOfChild ⟨"TM4", .str "four", .missing, "u4"⟩ ∈
      (process_tm2_hierarchy c5_children).1 ∧
    (fetch_tm2_persist [] (process_tm2_hierarchy c5_children).1 true).2 =
      .ok { success := true, codes_fetched := c5_children.countP childOk,
            system := "icd11_tm2" } :=
  ⟨(C5_amended_skip_and_count c5_children []).1,
    (C5_amended_skip_and_count c5_children []).2.2.1 _ (by decide),
    (C5_amended_skip_and_count c5_children []).2.2.2⟩

/-- Claim C10: a synchronization run whose crawl yields no code entries
(here: no child fetch succeeded, which covers a childless root) leaves the
stored snapshot completely unchanged — no delete and no insert happen,
whatever the insert outcome would have been — and reports
`codes_fetched = 0`. -/
theorem C10_empty_crawl_frame (store : List Tm2Code)
    (children : List ChildFetch) (insert_ok : Bool)
    (h : children.countP childOk = 0) :
    fetch_tm2_persist store (process_tm2_hierarchy children).1 insert_ok =
      (store, .ok { success := true, codes_fetched := 0,
                    system := "icd11_tm2" }) := by
  have hlen : (process_tm2_hierarchy children).1.length = 0 := by
    show (children.filterMap childEntry).length = 0
    rw [length_filterMap_childEntry children, h]
  have hnil : (process_tm2_hierarchy children).1 = [] :=
    List.length_eq_zero.mp hlen
  rw [hnil]
  rfl

/-- Witness for C10: a crawl of two failing children (one non-200 response,
one exception) leaves a one-document store untouched and reports zero codes
fetched, even though the insert step would have failed. -/
theorem C10_empty_crawl_frame_witness :
    ([ChildFetch.badStatus 500, ChildFetch.exn "timeout"].countP childOk
      = 0) ∧
    fetch_tm2_persist [c3_old]
      (process_tm2_hierarchy
        [ChildFetch.badStatus 500, ChildFetch.exn "timeout"]).1 false =
      ([c3_old], .ok { success := true, codes_fetched := 0,
                       system := "icd11_tm2" }) :=
  ⟨by decide, C10_empty_crawl_frame [c3_old]
    [ChildFetch.badStatus 500, ChildFetch.exn "timeout"] false (by decide)⟩

/-- A cleaned CSV row of a NAMASTE import (`NamasteService.process_csv`,
namaste_service.py lines 19-64): the required columns plus the optional
ones, `fillna('')` already applied. -/
structure CsvRow where
  code : String
  display : String
  definition : String
  ayush_system : String
  category : String
deriving DecidableEq, Repr

/-- A stored NAMASTE code document, the `doc` dict of `process_csv`
(namaste_service.py lines 53-62). -/
structure NamasteDoc where
  code : String
  display : String
  system : String
  definition : String
  ayush_system : String
  category : String
  is_active : Bool
deriving DecidableEq, Repr

/-- The summary dict returned by `process_csv`
(namaste_service.py lines 74-79). -/
structure CsvSummary where
  success : Bool
  codes_processed : Nat
  codes_skipped : Nat
  total_codes : Nat
deriving DecidableEq, Repr

/-- The document built from one CSV row (namaste_service.py lines 53-62). -/
def docOfRow (r : CsvRow) : NamasteDoc :=
  { code := r.code, display := r.display, system := "namaste",
    definition := r.definition, ayush_system := r.ayush_system.toLower,
    category := r.category, is_active := true }

/-- The duplicate check of `process_csv` (namaste_service.py line 49):
`collection.find_one({"code": row['code']})` against the collection as it
stood when the batch began — the batch's own pending documents are only
inserted at the end (line 67), so they are invisible to this check. -/
def rowIsDup (store : List NamasteDoc) (r : CsvRow) : Bool :=
  (store.find? (fun d => d.code == r.code)).isSome

/-- Model of `NamasteService.process_csv` (namaste_service.py lines 45-79): each row
whose code is already in the collection is counted as skipped; every other
row is appended to the pending batch (in row order) and counted as
processed; the batch is inserted once at the end and the summary reports
the counters and the post-insert collection size. The row loop is the
filter below: the collection is not modified while it runs. -/
def process_csv (store : List NamasteDoc) (rows : List CsvRow) :
    List NamasteDoc × CsvSummary :=
  let fresh := rows.filter (fun r => !(rowIsDup store r))
  let store' := store ++ fresh.map docOfRow
  (store', { success := true, codes_processed := fresh.length,
             codes_skipped := rows.countP (rowIsDup store),
             total_codes := store'.length })

/-- A CSV row whose code collides with itself when repeated in one batch. -/
def c8_row : CsvRow :=
  { code := "AY-1", display := "duplicated disorder", definition := "",
    ayush_system := "ayurveda", category := "" }

/-- Counterexample to claim C8: ingesting a CSV that contains the same code
twice into an empty store inserts both rows — the second insert happens
although the pair ("AY-1", "namaste") is already part of the same bulk
insert — so afterwards the pair occurs twice in the store and no skip is
reported. -/
theorem C8_intra_batch_duplicate_counterexample :
    ((process_csv [] [c8_row, c8_row]).1.countP
      (fun d => d.code == "AY-1" && d.system == "namaste")) = 2 ∧
    (process_csv [] [c8_row, c8_row]).2.codes_skipped = 0 ∧
    (process_csv [] [c8_row, c8_row]).2.codes_processed = 2 := by
  decide

/-- Claim C8 as amended: `process_csv` never aborts a batch; rows whose code
already exists in the store at the start of the batch are not inserted and
are reported as the skip count (with processed + skipped = row count); every
document the batch adds has a code that was absent from the store when the
batch began. Uniqueness of `(code, system)` is preserved only when the
batch's own codes are pairwise distinct: duplicates inside one CSV are all
inserted. -/
theorem countP_not_add_countP {α : Type} (p : α → Bool) (l : List α) :
    l.countP (fun a => !(p a)) + l.countP p = l.length := by
  induction l with
  | nil => rfl
  | cons a l ih =>
    cases h : p a <;> simp [List.countP_cons, h, ← ih] <;> omega

theorem C8_amended_skip_report (store : List NamasteDoc)
    (rows : List CsvRow) :
    (process_csv store rows).2.codes_processed +
      (process_csv store rows).2.codes_skipped = rows.length ∧
    (process_csv store rows).2.codes_skipped =
      rows.countP (rowIsDup store) ∧
    (∀ d ∈ (process_csv store rows).1, d ∈ store ∨
      (store.find? (fun e => e.code == d.code)) = none) ∧
    ((rows.map CsvRow.code).Nodup →
      (∀ c, store.countP (fun d => d.code == c) ≤ 1) →
      ∀ c, (process_csv store rows).1.countP (fun d => d.code == c) ≤ 1) := by
  have hstore1 : (process_csv store rows).1 =
      store ++ (rows.filter (fun r => !(rowIsDup store r))).map docOfRow := rfl
  refine ⟨?_, rfl, ?_, ?_⟩
  · show (rows.filter (fun r => !(rowIsDup store r))).length +
      rows.countP (rowIsDup store) = rows.length
    rw [← List.countP_eq_length_filter]
    exact countP_not_add_countP (rowIsDup store) rows
  · intro d hd
    rw [hstore1, List.mem_append] at hd
    rcases hd with hd | hd
    · exact Or.inl hd
    · right
      rw [List.mem_map] at hd
      obtain ⟨r, hr, rfl⟩ := hd
      rw [List.mem_filter] at hr
      have h2 : rowIsDup store r = false := by
        have h4 := hr.2
        cases hb : rowIsDup store r
        · rfl
        · rw [hb] at h4
          exact absurd h4 (by decide)
      have hnd : (store.find? (fun e => e.code == (docOfRow r).code)).isSome
          = false := h2
      cases hf : store.find? (fun e => e.code == (docOfRow r).code) with
      | none => rfl
      | some x =>
        rw [hf] at hnd
        simp at hnd
  · intro hnodup hstore c
    rw [hstore1, List.countP_append]
    have hbatch : ((rows.filter (fun r => !(rowIsDup store r))).map
        docOfRow).countP (fun d => d.code == c) ≤ 1 := by
      rw [List.countP_map]
      have hle : (rows.filter (fun r => !(rowIsDup store r))).countP
          ((fun d : NamasteDoc => d.code == c) ∘ docOfRow) ≤
          rows.countP (fun r => r.code == c) := by
        rw [List.countP_filter]
        apply List.countP_mono_left
        intro r _ hr
        simp only [Bool.and_eq_true] at hr
        exact hr.1
      refine le_trans hle ?_
      calc rows.countP (fun r => r.code == c)
          = rows.countP ((fun s => s == c) ∘ CsvRow.code) := rfl
        _ = (rows.map CsvRow.code).countP (fun s => s == c) :=
            (List.countP_map _ _ _).symm
        _ = (rows.map CsvRow.code).count c := rfl
        _ ≤ 1 := List.nodup_iff_count_le_one.mp hnodup c
    by_cases hpresent : store.countP (fun d => d.code == c) = 0
    · rw [hpresent, Nat.zero_add]
      exact hbatch
    · have hfound : ∃ e ∈ store, (e.code == c) = true :=
        List.countP_pos_iff.mp (Nat.pos_of_ne_zero hpresent)
      have hzero : ((rows.filter (fun r => !(rowIsDup store r))).map
          docOfRow).countP (fun d => d.code == c) = 0 := by
        rw [List.countP_eq_zero]
        intro d hd
        rw [List.mem_map] at hd
        obtain ⟨r, hr, rfl⟩ := hd
        rw [List.mem_filter] at hr
        intro hdc
        have hrc : r.code = c := by
          simpa [docOfRow] using hdc
        obtain ⟨e, he, hec⟩ := hfound
        have hdup : (store.find? (fun d => d.code == r.code)).isSome
            = true := by
          rw [List.find?_isSome]
          refine ⟨e, he, ?_⟩
          rw [hrc]
          exact hec
        have h3 : rowIsDup store r = true := hdup
        have h4 := hr.2
        rw [h3] at h4
        exact absurd h4 (by decide)
      rw [hzero, Nat.add_zero]
      exact hstore c

/-- Witness for the amended C8: re-ingesting a single-row CSV against a
store that already holds its document reports one skip and zero inserts,
and the store keeps at most one document per code. -/
theorem C8_amended_skip_report_witness :
    ((process_csv [docOfRow c8_row] [c8_row]).2.codes_processed +
      (process_csv [docOfRow c8_row] [c8_row]).2.codes_skipped =
        [c8_row].length) ∧
    ([c8_row].map CsvRow.code).Nodup ∧
    ((process_csv [docOfRow c8_row] [c8_row]).1.countP
      (fun d => d.code == "AY-1") ≤ 1) :=
  ⟨(C8_amended_skip_report [docOfRow c8_row] [c8_row]).1,
    by decide,
    (C8_amended_skip_report [docOfRow c8_row] [c8_row]).2.2.2
      (by decide) (fun c => List.countP_le_length _) "AY-1"⟩

end Bridge
